import Mathlib

/-!
Verification development for the aspia host session supervisor
(`source/host/win/host.cc`) and credential record (`source/host/user.cc`).

The C++ code is shallowly embedded: each Qt slot / member function becomes a
Lean function from an explicit `Host` (resp. `User`) state to a new state
together with the list of externally observable effects it performs.
Environment nondeterminism (the ids returned by `startTimer`, the channel id
chosen by the IPC server, the active console session id) is passed in as
explicit arguments.
-/

namespace Aspia

/-! ## Credential record (`source/host/user.cc`) -/

/-- Modelled from the spec: `host/user.h` (not included in the sources) fixes a
maximum user-name length; the spec only states that a bound exists
("validated string ≤ N chars"). -/
def kMaxUserNameLength : Nat := 64

/-- Modelled from the spec: minimum password length bound from `host/user.h`
(not included in the sources). -/
def kMinPasswordLength : Nat := 8

/-- Modelled from the spec: maximum password length bound from `host/user.h`
(not included in the sources). -/
def kMaxPasswordLength : Nat := 64

/-- Modelled from the spec: expected digest length from `host/user.h` (not
included in the sources); consistent with the SHA-512 digest size of 64
bytes used by `createPasswordHash`. -/
def kPasswordHashLength : Nat := 64

/-- `isValidUserNameChar` of `user.cc`: letters, digits, `.`, `_`, `-`. -/
def isValidUserNameChar (c : Char) : Bool :=
  c.isAlpha || c.isDigit || c = '.' || c = '_' || c = '-'

/-- `User::isValidName` of `user.cc`: nonempty, within the length bound, all
characters valid. -/
def isValidName (value : String) : Bool :=
  let length := value.length
  if length ≤ 0 || length > kMaxUserNameLength then false
  else value.toList.all isValidUserNameChar

/-- `User::isValidPassword` of `user.cc`: length within the bounds. -/
def isValidPassword (value : String) : Bool :=
  let length := value.length
  if length < kMinPasswordLength || length > kMaxPasswordLength then false
  else true

/-- `isValidPasswordHash` of `user.cc`: only the digest length is checked. -/
def isValidPasswordHash (password_hash : List Nat) : Bool :=
  if password_hash.length ≠ kPasswordHashLength then false else true

/-- Iteration count `kIterCount` of `createPasswordHash` in `user.cc`. -/
def kIterCount : Nat := 100000

/-- `createPasswordHash` of `user.cc`: iterate `Sha512::hash` `kIterCount`
times starting from the password bytes.  The hash function itself
(`crypto/sha.cc`) is outside the supervisor core, so it is a parameter. -/
def createPasswordHash (sha512 : List Nat → List Nat) (password : List Nat) :
    List Nat :=
  Nat.iterate sha512 kIterCount password

/-- UTF-8 bytes of a string: models `QString::toStdString` (which encodes the
string in UTF-8 into a `std::string`). -/
def utf8Bytes (s : String) : List Nat :=
  (String.toUTF8 s).toList.map (fun b => b.toNat)

/-- The credential record of `user.cc`: name, password digest, flags bitmask,
session-count limit. -/
structure User where
  name : String
  password_hash : List Nat
  flags : Nat
  sessions : Nat
deriving Repr, DecidableEq

/-- `User::setName` of `user.cc`. -/
def User.setName (value : String) (u : User) : Bool × User :=
  if ¬ isValidName value then (false, u)
  else (true, { u with name := value })

/-- `User::setPassword` of `user.cc`: validate, then store the iterated
digest of the UTF-8 encoding of the password. -/
def User.setPassword (sha512 : List Nat → List Nat) (value : String)
    (u : User) : Bool × User :=
  if ¬ isValidPassword value then (false, u)
  else (true, { u with password_hash := createPasswordHash sha512 (utf8Bytes value) })

/-- `User::setPasswordHash` of `user.cc`. -/
def User.setPasswordHash (value : List Nat) (u : User) : Bool × User :=
  if ¬ isValidPasswordHash value then (false, u)
  else (true, { u with password_hash := value })

/-- `User::setFlags` of `user.cc`. -/
def User.setFlags (value : Nat) (u : User) : User :=
  { u with flags := value }

/-- `User::setSessions` of `user.cc`. -/
def User.setSessions (value : Nat) (u : User) : User :=
  { u with sessions := value }

/-! ## Session supervisor (`source/host/win/host.cc`)

`Host` is the Qt object's mutable state.  Pointer members are modelled by
ownership flags (a `QPointer` that is null becomes `false`).  `armed_timers`
records the ids of the event-loop timers that are actually armed at the OS
level: `startTimer` adds the fresh id handed in by the environment,
`killTimer` removes it.  `attach_timer_id_` of the C++ is `attach_timer_id`
(0 meaning "none tracked"), exactly as in the source.  `server_pending`
counts live `IpcServer` objects created by `attachSession` and not yet
self-terminated. -/

/-- `proto::auth::SessionType` restricted to the values `host.cc`
distinguishes; `unknown` stands for every other enum value (the `default:`
branch of the switch in `Host::ipcServerStarted`). -/
inductive SessionType
  | desktopManage
  | desktopView
  | fileTransfer
  | unknown
deriving Repr, DecidableEq

/-- `Host::State` of `host.h`: the four supervisor states. -/
inductive HState
  | starting
  | attached
  | detached
  | stopped
deriving Repr, DecidableEq

/-- `HostProcess::Account`: which OS account the worker process runs under. -/
inductive Account
  | system
  | user
deriving Repr, DecidableEq

/-- Externally observable effects of the supervisor's member functions. -/
inductive Effect
  | finished
  | startTimerOk (id : Nat)
  | startTimerFail
  | killTimer (id : Nat)
  | killProcess
  | deleteChannel
  | newIpcServer
  | spawnProcess (account : Account) (args : List String) (sessionId : Nat)
  | ipcWrite (priority : Int) (buffer : List Nat)
  | netWrite (priority : Int) (buffer : List Nat)
  | ipcRead
  | netRead
  | fatal
deriving Repr, DecidableEq

/-- The supervisor's state (the data members of `Host` in `host.h`, plus the
set of OS-armed timers, which the C++ keeps implicitly in the event loop). -/
structure Host where
  state : HState
  session_type : SessionType
  attach_timer_id : Nat
  session_id : Nat
  session_process : Bool
  ipc_channel : Bool
  network_channel : Bool
  server_pending : Nat
  armed_timers : List Nat
deriving Repr, DecidableEq

/-- Pop the environment's answer to the next `startTimer` call; an exhausted
list behaves like a failing `startTimer` (result 0). -/
def takeTimer : List Nat → Nat × List Nat
  | [] => (0, [])
  | t :: rest => (t, rest)

/-! `Host::stop` and `Host::dettachSession` call each other (the FileTransfer
branch of `dettachSession` calls `stop`, and `stop` begins by calling
`dettachSession`); the recursion is bounded because each callee's entry guard
fires on re-entry.  `fuel` bounds the depth; depth 4 is never exhausted from
the public entry points. -/

mutual

def stopGo : Nat → List Nat → Host → Host × List Nat × List Effect
  | 0, tids, h => (h, tids, [])
  | fuel + 1, tids, h =>
    if h.state = HState.stopped then (h, tids, [])
    else
      let (h1, tids1, e1) := dettachGo fuel tids h
      let h2 := { h1 with state := HState.stopped }
      let (h3, e3) :=
        if h2.attach_timer_id ≠ 0 then
          ({ h2 with attach_timer_id := 0,
                     armed_timers := h2.armed_timers.erase h2.attach_timer_id },
           [Effect.killTimer h2.attach_timer_id])
        else (h2, [])
      (h3, tids1, e1 ++ e3 ++ [Effect.finished])

def dettachGo : Nat → List Nat → Host → Host × List Nat × List Effect
  | 0, tids, h => (h, tids, [])
  | fuel + 1, tids, h =>
    if h.state = HState.stopped ∨ h.state = HState.detached then (h, tids, [])
    else
      let h1 := { h with state := HState.detached }
      let (h2, e2) :=
        if h1.session_process then
          ({ h1 with session_process := false }, [Effect.killProcess])
        else (h1, [])
      let (h3, e3) :=
        if h2.ipc_channel then
          ({ h2 with ipc_channel := false }, [Effect.deleteChannel])
        else (h2, [])
      if h3.session_type = SessionType.fileTransfer then
        let (h4, tids4, e4) := stopGo fuel tids h3
        (h4, tids4, e2 ++ e3 ++ e4)
      else
        let (t, rest) := takeTimer tids
        if t = 0 then
          let (h4, tids4, e4) := stopGo fuel rest h3
          (h4, tids4, e2 ++ e3 ++ Effect.startTimerFail :: e4)
        else
          ({ h3 with attach_timer_id := t, armed_timers := t :: h3.armed_timers },
           rest, e2 ++ e3 ++ [Effect.startTimerOk t])

end

/-- `Host::stop` (`host.cc` lines 59–75). -/
def Host.stop (tids : List Nat) (h : Host) : Host × List Effect :=
  let (h1, _, e1) := stopGo 4 tids h
  (h1, e1)

/-- `Host::dettachSession` (`host.cc` lines 208–236). -/
def Host.dettachSession (tids : List Nat) (h : Host) : Host × List Effect :=
  let (h1, _, e1) := dettachGo 4 tids h
  (h1, e1)

/-- `Host::attachSession` (`host.cc` lines 193–206): enter Starting, record
the target session id, create and start a fresh `IpcServer`. -/
def Host.attachSession (sessionId : Nat) (h : Host) : Host × List Effect :=
  ({ h with state := HState.starting, session_id := sessionId,
            server_pending := h.server_pending + 1 },
   [Effect.newIpcServer])

/-- `Host::start` (`host.cc` lines 39–57): enter Starting, arm the attach
timeout, and on success attach to the active console session; on timer
failure stop. -/
def Host.start (tids : List Nat) (activeSessionId : Nat) (h : Host) :
    Host × List Effect :=
  let h1 := { h with state := HState.starting }
  let (t, rest) := takeTimer tids
  if t = 0 then
    let (h2, e2) := Host.stop rest h1
    (h2, Effect.startTimerFail :: e2)
  else
    let h2 := { h1 with attach_timer_id := t,
                        armed_timers := t :: h1.armed_timers }
    let (h3, e3) := Host.attachSession activeSessionId h2
    (h3, Effect.startTimerOk t :: e3)

/-- `WTS_CONSOLE_CONNECT` of the Windows session-change notification. -/
def WTS_CONSOLE_CONNECT : Nat := 1

/-- `WTS_CONSOLE_DISCONNECT` of the Windows session-change notification. -/
def WTS_CONSOLE_DISCONNECT : Nat := 2

/-- `Host::sessionChanged` (`host.cc` lines 77–95): only acted on in
Attached or Detached; connect re-attaches, disconnect detaches. -/
def Host.sessionChanged (event sessionId : Nat) (tids : List Nat) (h : Host) :
    Host × List Effect :=
  if h.state ≠ HState.attached ∧ h.state ≠ HState.detached then (h, [])
  else if event = WTS_CONSOLE_CONNECT then Host.attachSession sessionId h
  else if event = WTS_CONSOLE_DISCONNECT then Host.dettachSession tids h
  else (h, [])

/-- `Host::timerEvent` (`host.cc` lines 97–101). -/
def Host.timerEvent (timerId : Nat) (tids : List Nat) (h : Host) :
    Host × List Effect :=
  if timerId = h.attach_timer_id then Host.stop tids h else (h, [])

/-- `Host::networkMessageWritten` (`host.cc` lines 103–107). -/
def Host.networkMessageWritten (h : Host) : Host × List Effect :=
  if h.ipc_channel then (h, [Effect.ipcRead]) else (h, [])

/-- `Host::networkMessageReceived` (`host.cc` lines 109–113). -/
def Host.networkMessageReceived (buffer : List Nat) (h : Host) :
    Host × List Effect :=
  if h.ipc_channel then (h, [Effect.ipcWrite (-1) buffer]) else (h, [])

/-- `Host::ipcMessageWritten` (`host.cc` lines 115–119). -/
def Host.ipcMessageWritten (h : Host) : Host × List Effect :=
  if h.network_channel then (h, [Effect.netRead]) else (h, [])

/-- `Host::ipcMessageReceived` (`host.cc` lines 121–125). -/
def Host.ipcMessageReceived (buffer : List Nat) (h : Host) :
    Host × List Effect :=
  if h.network_channel then (h, [Effect.netWrite (-1) buffer]) else (h, [])

/-- The account and session-type token chosen by the switch in
`Host::ipcServerStarted` (`host.cc` lines 143–163); `none` is the
`default:` branch, which calls `qFatal`. -/
def sessionTypeSpawn : SessionType → Option (Account × String)
  | SessionType.desktopManage => some (Account.system, "desktop_manage")
  | SessionType.desktopView => some (Account.system, "desktop_view")
  | SessionType.fileTransfer => some (Account.user, "file_transfer")
  | SessionType.unknown => none

/-- The argument list `Host::ipcServerStarted` builds for the worker. -/
def workerArguments (channelId token : String) : List String :=
  ["--channel_id", channelId, "--session_type", token]

/-- `Host::ipcServerStarted` (`host.cc` lines 127–171): create the worker
process handle and launch it with the account and arguments determined by
the session type; an unknown session type is fatal (`qFatal`). -/
def Host.ipcServerStarted (channelId : String) (h : Host) :
    Host × List Effect :=
  match sessionTypeSpawn h.session_type with
  | some (account, token) =>
      ({ h with session_process := true },
       [Effect.spawnProcess account (workerArguments channelId token)
          h.session_id])
  | none => (h, [Effect.fatal])

/-- `Host::ipcNewConnection` (`host.cc` lines 173–191): kill the attach
timer, take ownership of the channel, enter Attached, and prime both
endpoints to read. -/
def Host.ipcNewConnection (h : Host) : Host × List Effect :=
  let (h1, e1) :=
    if h.attach_timer_id ≠ 0 then
      ({ h with attach_timer_id := 0,
                armed_timers := h.armed_timers.erase h.attach_timer_id },
       [Effect.killTimer h.attach_timer_id])
    else (h, [])
  ({ h1 with ipc_channel := true, state := HState.attached,
             server_pending := h1.server_pending - 1 },
   e1 ++ [Effect.ipcRead, Effect.netRead])

/-! ### Event layer

One constructor per notification the event loop can deliver to the `Host`
slots, following the `connect` calls in `host.cc`.  Events whose handler may
call `startTimer` carry the environment's answers (`tids`). -/

/-- The notifications deliverable to the supervisor by the event loop. -/
inductive Event
  | stopReq (tids : List Nat)
  | timerFired (id : Nat) (tids : List Nat)
  | sessionConnect (sessionId : Nat) (tids : List Nat)
  | sessionDisconnect (tids : List Nat)
  | sessionOther (event sessionId : Nat)
  | ipcServerStartedEv (channelId : String)
  | ipcNewConnectionEv
  | ipcServerError (tids : List Nat)
  | ipcDisconnected (tids : List Nat)
  | processFinished (tids : List Nat)
  | processError (tids : List Nat)
  | networkDisconnected (tids : List Nat)
  | netMsgReceived (buffer : List Nat)
  | netMsgWritten
  | ipcMsgReceived (buffer : List Nat)
  | ipcMsgWritten
deriving Repr, DecidableEq

/-- Which events the environment can deliver in a given state: a timer fires
only while armed, process signals only while a worker handle exists, channel
signals only while the channel exists, IPC-server signals only while a
server is live. -/
def eventEnabled (h : Host) : Event → Bool
  | Event.stopReq _ => true
  | Event.timerFired id _ => h.armed_timers.contains id
  | Event.sessionConnect _ _ => true
  | Event.sessionDisconnect _ => true
  | Event.sessionOther _ _ => true
  | Event.ipcServerStartedEv _ => 0 < h.server_pending
  | Event.ipcNewConnectionEv => 0 < h.server_pending
  | Event.ipcServerError _ => 0 < h.server_pending
  | Event.ipcDisconnected _ => h.ipc_channel
  | Event.processFinished _ => h.session_process
  | Event.processError _ => h.session_process
  | Event.networkDisconnected _ => h.network_channel
  | Event.netMsgReceived _ => h.network_channel
  | Event.netMsgWritten => h.network_channel
  | Event.ipcMsgReceived _ => h.ipc_channel
  | Event.ipcMsgWritten => h.ipc_channel

/-- Dispatch an event to the slot it is connected to in `host.cc`. -/
def handleEvent (h : Host) : Event → Host × List Effect
  | Event.stopReq tids => Host.stop tids h
  | Event.timerFired id tids => Host.timerEvent id tids h
  | Event.sessionConnect sessionId tids =>
      Host.sessionChanged WTS_CONSOLE_CONNECT sessionId tids h
  | Event.sessionDisconnect tids =>
      Host.sessionChanged WTS_CONSOLE_DISCONNECT 0 tids h
  | Event.sessionOther event sessionId =>
      Host.sessionChanged event sessionId [] h
  | Event.ipcServerStartedEv channelId => Host.ipcServerStarted channelId h
  | Event.ipcNewConnectionEv => Host.ipcNewConnection h
  | Event.ipcServerError tids =>
      Host.stop tids { h with server_pending := h.server_pending - 1 }
  | Event.ipcDisconnected tids => Host.dettachSession tids h
  | Event.processFinished tids => Host.dettachSession tids h
  | Event.processError tids => Host.stop tids h
  | Event.networkDisconnected tids =>
      let (h1, e1) := Host.stop tids h
      ({ h1 with network_channel := false }, e1)
  | Event.netMsgReceived buffer => Host.networkMessageReceived buffer h
  | Event.netMsgWritten => Host.networkMessageWritten h
  | Event.ipcMsgReceived buffer => Host.ipcMessageReceived buffer h
  | Event.ipcMsgWritten => Host.ipcMessageWritten h

/-- Run a sequence of events, concatenating the observed effects. -/
def runEvents (h : Host) : List Event → Host × List Effect
  | [] => (h, [])
  | e :: es =>
    let (h1, e1) := handleEvent h e
    let (h2, e2) := runEvents h1 es
    (h2, e1 ++ e2)

/-- Every event of the sequence is enabled in the state it is delivered in. -/
def validRun (h : Host) : List Event → Bool
  | [] => true
  | e :: es => eventEnabled h e && validRun (handleEvent h e).1 es

/-- The freshly constructed supervisor (the `Host` constructor plus the
initial values of the data members in `host.h`, which is not in the sources:
the initial `state_` is modelled as Stopped; every trace considered below
begins with `Host.start`, which overwrites it first). -/
def Host.init (sessionType : SessionType) : Host :=
  { state := HState.stopped
    session_type := sessionType
    attach_timer_id := 0
    session_id := 0
    session_process := false
    ipc_channel := false
    network_channel := true
    server_pending := 0
    armed_timers := [] }

/-- Is an effect a `startTimer` attempt (successful or failing)? -/
def isTimerArmAttempt : Effect → Bool
  | Effect.startTimerOk _ => true
  | Effect.startTimerFail => true
  | _ => false

/-- Number of `finished` notifications in an effect list. -/
def countFinished (l : List Effect) : Nat :=
  (l.filter (fun e => e = Effect.finished)).length

/-- Number of `startTimer` attempts in an effect list. -/
def countArmAttempts (l : List Effect) : Nat :=
  (l.filter isTimerArmAttempt).length

/-- Number of `IpcServer` creations in an effect list. -/
def countNewServers (l : List Effect) : Nat :=
  (l.filter (fun e => e = Effect.newIpcServer)).length

/-! ### The attached relay

A dedicated model of the two-way relay while Attached, combining the four
relay slots of `host.cc` with the channel contract.  Modelled from the spec:
the channel semantics (`ipc/ipc_channel.cc` and the network channel are not
in the sources): `readMessage` requests exactly one message, a message is
delivered only while a read is requested, `writeMessage` enqueues the bytes
and signals `messageWritten` once per write, in order.  A write queue of the
model collects the writes the supervisor has issued whose completion has not
been signalled yet; the history fields record delivered messages and
completed writes for each direction. -/

/-- Relay state while Attached: read-requested flags, unacknowledged write
queues, and per-direction histories. -/
structure Relay where
  netReadPending : Bool
  ipcReadPending : Bool
  ipcWriteQueue : List (List Nat)
  netWriteQueue : List (List Nat)
  netDelivered : List (List Nat)
  ipcDelivered : List (List Nat)
  ipcCompleted : List (List Nat)
  netCompleted : List (List Nat)
deriving Repr, DecidableEq

/-- The relay state right after `Host::ipcNewConnection` primed both
endpoints with one `readMessage` each. -/
def relayInit : Relay :=
  { netReadPending := true
    ipcReadPending := true
    ipcWriteQueue := []
    netWriteQueue := []
    netDelivered := []
    ipcDelivered := []
    ipcCompleted := []
    netCompleted := [] }

/-- Relay events: a message delivered by an endpoint, or a write-completion
signal from an endpoint. -/
inductive RelayEvent
  | netDeliver (buffer : List Nat)
  | ipcWriteDone
  | ipcDeliver (buffer : List Nat)
  | netWriteDone
deriving Repr, DecidableEq

/-- Channel contract: a message is delivered only while a read is requested;
a write completion is signalled only while a write is outstanding. -/
def relayEnabled (r : Relay) : RelayEvent → Bool
  | RelayEvent.netDeliver _ => r.netReadPending
  | RelayEvent.ipcWriteDone => !r.ipcWriteQueue.isEmpty
  | RelayEvent.ipcDeliver _ => r.ipcReadPending
  | RelayEvent.netWriteDone => !r.netWriteQueue.isEmpty

/-- One relay step: the endpoint event followed by the `Host` slot it
triggers (`networkMessageReceived` forwards verbatim to the IPC channel,
`ipcMessageWritten` requests the next network read, and symmetrically). -/
def relayStep (r : Relay) : RelayEvent → Relay
  | RelayEvent.netDeliver buffer =>
      { r with netReadPending := false
               netDelivered := r.netDelivered ++ [buffer]
               ipcWriteQueue := r.ipcWriteQueue ++ [buffer] }
  | RelayEvent.ipcWriteDone =>
      { r with ipcWriteQueue := r.ipcWriteQueue.tail
               ipcCompleted := r.ipcCompleted ++ r.ipcWriteQueue.take 1
               netReadPending := true }
  | RelayEvent.ipcDeliver buffer =>
      { r with ipcReadPending := false
               ipcDelivered := r.ipcDelivered ++ [buffer]
               netWriteQueue := r.netWriteQueue ++ [buffer] }
  | RelayEvent.netWriteDone =>
      { r with netWriteQueue := r.netWriteQueue.tail
               netCompleted := r.netCompleted ++ r.netWriteQueue.take 1
               ipcReadPending := true }

/-- Run a sequence of relay events. -/
def relayRun (r : Relay) : List RelayEvent → Relay
  | [] => r
  | e :: es => relayRun (relayStep r e) es

/-- Every relay event of the sequence respects the channel contract in the
state it occurs in. -/
def relayValid (r : Relay) : List RelayEvent → Bool
  | [] => true
  | e :: es => relayEnabled r e && relayValid (relayStep r e) es

/-- The relay invariant: at most one unacknowledged message per direction, a
direction's read is requested only while it has no unacknowledged message,
and the completed writes followed by the outstanding ones are exactly the
messages delivered by the opposite endpoint, verbatim and in order. -/
def relayInv (r : Relay) : Prop :=
  r.ipcWriteQueue.length ≤ 1 ∧
  r.netWriteQueue.length ≤ 1 ∧
  (r.netReadPending = true → r.ipcWriteQueue = []) ∧
  (r.ipcReadPending = true → r.netWriteQueue = []) ∧
  r.ipcCompleted ++ r.ipcWriteQueue = r.netDelivered ∧
  r.netCompleted ++ r.netWriteQueue = r.ipcDelivered

/-! ### Concrete trace states

Intermediate states of two concrete executions, used to settle the two
lifecycle claims that fail on the code.  `c1s*` follow a FileTransfer
supervisor from `start` to an explicit `stop` in Attached; `c3s*` follow a
DesktopManage supervisor whose worker process exits while the supervisor is
still Starting. -/

/-- FileTransfer trace, after `start` armed timer 1 for console session 5. -/
def c1s1 : Host :=
  { state := HState.starting, session_type := SessionType.fileTransfer,
    attach_timer_id := 1, session_id := 5, session_process := false,
    ipc_channel := false, network_channel := true, server_pending := 1,
    armed_timers := [1] }

/-- FileTransfer trace, after the IPC server reported started and the worker
was spawned. -/
def c1s2 : Host := { c1s1 with session_process := true }

/-- FileTransfer trace, Attached: worker connected, timer 1 killed. -/
def c1s3 : Host :=
  { c1s2 with attach_timer_id := 0, armed_timers := [], ipc_channel := true,
              state := HState.attached, server_pending := 0 }

/-- FileTransfer trace, after `stop`: everything torn down. -/
def c1s4 : Host :=
  { c1s3 with state := HState.stopped, session_process := false,
              ipc_channel := false }

/-- DesktopManage trace, after `start` armed timer 1 for console session 5. -/
def c3s1 : Host :=
  { state := HState.starting, session_type := SessionType.desktopManage,
    attach_timer_id := 1, session_id := 5, session_process := false,
    ipc_channel := false, network_channel := true, server_pending := 1,
    armed_timers := [1] }

/-- DesktopManage trace, after the worker was spawned. -/
def c3s2 : Host := { c3s1 with session_process := true }

/-- DesktopManage trace, after the worker exited while the supervisor was
still Starting: `dettachSession` armed timer 2 while timer 1 is still
armed. -/
def c3s3 : Host :=
  { state := HState.detached, session_type := SessionType.desktopManage,
    attach_timer_id := 2, session_id := 5, session_process := false,
    ipc_channel := false, network_channel := true, server_pending := 1,
    armed_timers := [2, 1] }

/-- DesktopManage trace, after a console reconnect to session 6. -/
def c3s4 : Host :=
  { c3s3 with state := HState.starting, session_id := 6, server_pending := 2 }

/-- DesktopManage trace, after the second worker was spawned. -/
def c3s5 : Host := { c3s4 with session_process := true }

/-- DesktopManage trace, Attached to session 6: only timer 2 was killed, the
leaked timer 1 stays armed. -/
def c3s6 : Host :=
  { state := HState.attached, session_type := SessionType.desktopManage,
    attach_timer_id := 0, session_id := 6, session_process := true,
    ipc_channel := true, network_channel := true, server_pending := 1,
    armed_timers := [1] }

/-! ## Lemmas and claim theorems -/

lemma c1step0 : (Host.init SessionType.fileTransfer).start [1] 5 =
    (c1s1, [Effect.startTimerOk 1, Effect.newIpcServer]) := rfl

lemma c1step1 : handleEvent c1s1 (Event.ipcServerStartedEv "ch") =
    (c1s2, [Effect.spawnProcess Account.user
      ["--channel_id", "ch", "--session_type", "file_transfer"] 5]) := rfl

lemma c1step2 : handleEvent c1s2 Event.ipcNewConnectionEv =
    (c1s3, [Effect.killTimer 1, Effect.ipcRead, Effect.netRead]) := rfl

lemma c1step3 : handleEvent c1s3 (Event.stopReq [2]) =
    (c1s4, [Effect.killProcess, Effect.deleteChannel, Effect.finished,
            Effect.finished]) := rfl

lemma c1step4 : handleEvent c1s4 (Event.stopReq [3]) = (c1s4, []) := rfl

lemma c1en1 : eventEnabled c1s1 (Event.ipcServerStartedEv "ch") = true := rfl

lemma c1en2 : eventEnabled c1s2 Event.ipcNewConnectionEv = true := rfl

lemma c1en3 : eventEnabled c1s3 (Event.stopReq [2]) = true := rfl

lemma c1en4 : eventEnabled c1s4 (Event.stopReq [3]) = true := rfl

lemma c3step0 : (Host.init SessionType.desktopManage).start [1] 5 =
    (c3s1, [Effect.startTimerOk 1, Effect.newIpcServer]) := rfl

lemma c3step1 : handleEvent c3s1 (Event.ipcServerStartedEv "ch") =
    (c3s2, [Effect.spawnProcess Account.system
      ["--channel_id", "ch", "--session_type", "desktop_manage"] 5]) := rfl

lemma c3step2 : handleEvent c3s2 (Event.processFinished [2]) =
    (c3s3, [Effect.killProcess, Effect.startTimerOk 2]) := rfl

lemma c3step3 : handleEvent c3s3 (Event.sessionConnect 6 []) =
    (c3s4, [Effect.newIpcServer]) := rfl

lemma c3step4 : handleEvent c3s4 (Event.ipcServerStartedEv "ch2") =
    (c3s5, [Effect.spawnProcess Account.system
      ["--channel_id", "ch2", "--session_type", "desktop_manage"] 6]) := rfl

lemma c3step5 : handleEvent c3s5 Event.ipcNewConnectionEv =
    (c3s6, [Effect.killTimer 2, Effect.ipcRead, Effect.netRead]) := rfl

lemma c3en1 : eventEnabled c3s1 (Event.ipcServerStartedEv "ch") = true := rfl

lemma c3en2 : eventEnabled c3s2 (Event.processFinished [2]) = true := rfl

lemma c3en3 : eventEnabled c3s3 (Event.sessionConnect 6 []) = true := rfl

lemma c3en4 : eventEnabled c3s4 (Event.ipcServerStartedEv "ch2") = true := rfl

lemma c3en5 : eventEnabled c3s5 Event.ipcNewConnectionEv = true := rfl

lemma relayInv_init : relayInv relayInit := by
  simp [relayInv, relayInit]

lemma relayInv_step (r : Relay) (e : RelayEvent) (hinv : relayInv r)
    (hen : relayEnabled r e = true) : relayInv (relayStep r e) := by
  obtain ⟨l1, l2, p1, p2, hist1, hist2⟩ := hinv
  cases e with
  | netDeliver b =>
      simp only [relayEnabled] at hen
      have hq := p1 hen
      simp only [relayStep, relayInv, hq] at hist1 ⊢
      simp_all
  | ipcWriteDone =>
      simp only [relayEnabled, Bool.not_eq_true', List.isEmpty_eq_false] at hen
      rcases hqe : r.ipcWriteQueue with _ | ⟨b, rest⟩
      · simp [hqe] at hen
      · have hrest : rest = [] := by
          rw [hqe] at l1; simpa [Nat.succ_le_succ_iff] using l1
        subst hrest
        simp only [relayStep, relayInv, hqe] at hist1 ⊢
        simp_all
  | ipcDeliver b =>
      simp only [relayEnabled] at hen
      have hq := p2 hen
      simp only [relayStep, relayInv, hq] at hist2 ⊢
      simp_all
  | netWriteDone =>
      simp only [relayEnabled, Bool.not_eq_true', List.isEmpty_eq_false] at hen
      rcases hqe : r.netWriteQueue with _ | ⟨b, rest⟩
      · simp [hqe] at hen
      · have hrest : rest = [] := by
          rw [hqe] at l2; simpa [Nat.succ_le_succ_iff] using l2
        subst hrest
        simp only [relayStep, relayInv, hqe] at hist2 ⊢
        simp_all

lemma relayInv_run (evs : List RelayEvent) :
    ∀ r : Relay, relayInv r → relayValid r evs = true →
      relayInv (relayRun r evs) := by
  induction evs with
  | nil => intro r hr _; exact hr
  | cons e es ih =>
      intro r hr hv
      rw [relayValid, Bool.and_eq_true] at hv
      exact ih _ (relayInv_step r e hr hv.1) hv.2

/-- Claim C1 (fails on the code): a FileTransfer supervisor is started,
attaches, and then `stop` is called twice in sequence.  The trace is legal
(every event is enabled), yet the run emits the `finished` notification
TWICE, not once: the FileTransfer branch of `dettachSession` calls `stop`
re-entrantly, which emits `finished`, and the outer `stop` then emits it
again because it never re-checks `state_` after its `dettachSession` call.
The worker-process and IPC-channel handles are indeed both released. -/
theorem C1_stop_emits_finished_twice :
    validRun ((Host.init SessionType.fileTransfer).start [1] 5).1
        [Event.ipcServerStartedEv "ch", Event.ipcNewConnectionEv,
         Event.stopReq [2], Event.stopReq [3]] = true ∧
    countFinished (runEvents ((Host.init SessionType.fileTransfer).start [1] 5).1
        [Event.ipcServerStartedEv "ch", Event.ipcNewConnectionEv,
         Event.stopReq [2], Event.stopReq [3]]).2 = 2 ∧
    (runEvents ((Host.init SessionType.fileTransfer).start [1] 5).1
        [Event.ipcServerStartedEv "ch", Event.ipcNewConnectionEv,
         Event.stopReq [2], Event.stopReq [3]]).1.session_process = false ∧
    (runEvents ((Host.init SessionType.fileTransfer).start [1] 5).1
        [Event.ipcServerStartedEv "ch", Event.ipcNewConnectionEv,
         Event.stopReq [2], Event.stopReq [3]]).1.ipc_channel = false := by
  have h1 : ((Host.init SessionType.fileTransfer).start [1] 5).1 = c1s1 := by
    rw [c1step0]
  rw [h1]
  simp only [validRun, runEvents, c1step1, c1step2, c1step3, c1step4,
    c1en1, c1en2, c1en3, c1en4, Bool.and_self, Bool.true_and]
  exact ⟨trivial, rfl, rfl, rfl⟩

/-- Claim C2: for a FileTransfer supervisor, any detach while Attached goes
directly to Stopped, with no `startTimer` attempt and no new attach
sequence; the three detach notifications (console disconnect, IPC channel
disconnect, worker-process exit) all route to `dettachSession`. -/
theorem C2_fileTransfer_detach_goes_to_stopped (h : Host) (tids : List Nat)
    (hatt : h.state = HState.attached)
    (hft : h.session_type = SessionType.fileTransfer) :
    (h.dettachSession tids).1.state = HState.stopped ∧
    countArmAttempts (h.dettachSession tids).2 = 0 ∧
    countNewServers (h.dettachSession tids).2 = 0 ∧
    handleEvent h (Event.sessionDisconnect tids) = h.dettachSession tids ∧
    handleEvent h (Event.ipcDisconnected tids) = h.dettachSession tids ∧
    handleEvent h (Event.processFinished tids) = h.dettachSession tids := by
  obtain ⟨st, sty, tid, sid, sp, ic, nc, pend, arm⟩ := h
  simp only at hatt hft
  subst hatt hft
  rcases sp with _ | _ <;> rcases ic with _ | _ <;> rcases tid with _ | t <;>
    exact ⟨rfl, rfl, rfl, rfl, rfl, rfl⟩

/-- Witness for C2 at a concrete Attached FileTransfer supervisor. -/
theorem C2_fileTransfer_detach_goes_to_stopped_witness :
    (Host.dettachSession []
       ⟨HState.attached, SessionType.fileTransfer, 0, 5, true, true, true, 0,
        []⟩).1.state = HState.stopped ∧
    countArmAttempts (Host.dettachSession []
       ⟨HState.attached, SessionType.fileTransfer, 0, 5, true, true, true, 0,
        []⟩).2 = 0 ∧
    countNewServers (Host.dettachSession []
       ⟨HState.attached, SessionType.fileTransfer, 0, 5, true, true, true, 0,
        []⟩).2 = 0 ∧
    handleEvent
       ⟨HState.attached, SessionType.fileTransfer, 0, 5, true, true, true, 0,
        []⟩ (Event.sessionDisconnect []) =
      Host.dettachSession []
       ⟨HState.attached, SessionType.fileTransfer, 0, 5, true, true, true, 0,
        []⟩ ∧
    handleEvent
       ⟨HState.attached, SessionType.fileTransfer, 0, 5, true, true, true, 0,
        []⟩ (Event.ipcDisconnected []) =
      Host.dettachSession []
       ⟨HState.attached, SessionType.fileTransfer, 0, 5, true, true, true, 0,
        []⟩ ∧
    handleEvent
       ⟨HState.attached, SessionType.fileTransfer, 0, 5, true, true, true, 0,
        []⟩ (Event.processFinished []) =
      Host.dettachSession []
       ⟨HState.attached, SessionType.fileTransfer, 0, 5, true, true, true, 0,
        []⟩ :=
  C2_fileTransfer_detach_goes_to_stopped
    ⟨HState.attached, SessionType.fileTransfer, 0, 5, true, true, true, 0, []⟩
    [] rfl rfl

/-- Claim C3 (fails on the code): a legal trace arms TWO timers at once.
After `start` arms timer 1, the worker process exits while the supervisor
is still Starting; `dettachSession` then overwrites `attach_timer_id_` with
a fresh timer 2 without killing timer 1, so both are armed.  Continuing the
trace, a console reconnect and a successful rendezvous kill only timer 2:
the leaked timer 1 is still armed while the supervisor is Attached, also
refuting "armed only while Starting or Detached". -/
theorem C3_two_timers_armed :
    validRun ((Host.init SessionType.desktopManage).start [1] 5).1
        [Event.ipcServerStartedEv "ch", Event.processFinished [2],
         Event.sessionConnect 6 [], Event.ipcServerStartedEv "ch2",
         Event.ipcNewConnectionEv] = true ∧
    (runEvents ((Host.init SessionType.desktopManage).start [1] 5).1
        [Event.ipcServerStartedEv "ch",
         Event.processFinished [2]]).1.armed_timers = [2, 1] ∧
    (runEvents ((Host.init SessionType.desktopManage).start [1] 5).1
        [Event.ipcServerStartedEv "ch", Event.processFinished [2],
         Event.sessionConnect 6 [], Event.ipcServerStartedEv "ch2",
         Event.ipcNewConnectionEv]).1.state = HState.attached ∧
    (runEvents ((Host.init SessionType.desktopManage).start [1] 5).1
        [Event.ipcServerStartedEv "ch", Event.processFinished [2],
         Event.sessionConnect 6 [], Event.ipcServerStartedEv "ch2",
         Event.ipcNewConnectionEv]).1.armed_timers = [1] := by
  have h1 : ((Host.init SessionType.desktopManage).start [1] 5).1 = c3s1 := by
    rw [c3step0]
  rw [h1]
  simp only [validRun, runEvents, c3step1, c3step2, c3step3, c3step4, c3step5,
    c3en1, c3en2, c3en3, c3en4, c3en5, Bool.and_self, Bool.true_and]
  exact ⟨trivial, rfl, rfl, rfl⟩

/-- Counterexample to claim C4: a console reconnect delivered while
Detached with timer 7 armed does NOT disarm the timer: afterwards
`attach_timer_id_` is still 7, timer 7 is still armed, and the only side
effect is the creation of the new IPC server (no `killTimer`). -/
theorem C4_counterexample_timer_not_disarmed :
    (Host.sessionChanged WTS_CONSOLE_CONNECT 3 []
        ⟨HState.detached, SessionType.desktopManage, 7, 1, false, false, true,
         0, [7]⟩).1.attach_timer_id = 7 ∧
    (Host.sessionChanged WTS_CONSOLE_CONNECT 3 []
        ⟨HState.detached, SessionType.desktopManage, 7, 1, false, false, true,
         0, [7]⟩).1.armed_timers = [7] ∧
    (Host.sessionChanged WTS_CONSOLE_CONNECT 3 []
        ⟨HState.detached, SessionType.desktopManage, 7, 1, false, false, true,
         0, [7]⟩).2 = [Effect.newIpcServer] :=
  ⟨rfl, rfl, rfl⟩

/-- Claim C4 as amended: a console reconnect while Detached restarts the
full attach sequence (state Starting, target session id updated, a fresh
IPC server created) but leaves the running timeout timer armed; the timer
is disarmed only when the new worker connects (`ipcNewConnection`). -/
theorem C4_reattach_keeps_timer_until_rendezvous (h : Host)
    (sessionId : Nat) (tids : List Nat)
    (hdet : h.state = HState.detached) :
    Host.sessionChanged WTS_CONSOLE_CONNECT sessionId tids h =
      ({ h with state := HState.starting, session_id := sessionId,
                server_pending := h.server_pending + 1 },
       [Effect.newIpcServer]) ∧
    (∀ h2 : Host, (Host.ipcNewConnection h2).1.attach_timer_id = 0 ∧
       (Host.ipcNewConnection h2).1.state = HState.attached) := by
  obtain ⟨st, sty, tid, sid, sp, ic, nc, pend, arm⟩ := h
  simp only at hdet
  subst hdet
  refine ⟨rfl, fun h2 => ?_⟩
  obtain ⟨st2, sty2, tid2, sid2, sp2, ic2, nc2, pend2, arm2⟩ := h2
  rcases tid2 with _ | t <;> exact ⟨rfl, rfl⟩

/-- Witness for the amended C4 at a concrete Detached supervisor. -/
theorem C4_reattach_keeps_timer_until_rendezvous_witness :
    Host.sessionChanged WTS_CONSOLE_CONNECT 3 []
        ⟨HState.detached, SessionType.desktopManage, 7, 1, false, false, true,
         0, [7]⟩ =
      ({ (⟨HState.detached, SessionType.desktopManage, 7, 1, false, false,
           true, 0, [7]⟩ : Host) with
         state := HState.starting, session_id := 3, server_pending := 0 + 1 },
       [Effect.newIpcServer]) ∧
    (∀ h2 : Host, (Host.ipcNewConnection h2).1.attach_timer_id = 0 ∧
       (Host.ipcNewConnection h2).1.state = HState.attached) :=
  C4_reattach_keeps_timer_until_rendezvous
    ⟨HState.detached, SessionType.desktopManage, 7, 1, false, false, true, 0,
     [7]⟩ 3 [] rfl

/-- Claim C5: while Attached, over every event sequence respecting the
channel contract, each direction has at most one unacknowledged forwarded
message, a direction's next read is requested only while it has no
unacknowledged message, and the write completions followed by the
outstanding writes are exactly the messages delivered by the opposite
endpoint, verbatim and in order; moreover the `Host` slots forward each
received buffer verbatim. -/
theorem C5_relay_backpressure_verbatim (evs : List RelayEvent)
    (hv : relayValid relayInit evs = true) :
    relayInv (relayRun relayInit evs) ∧
    (∀ (h : Host) (b : List Nat), h.ipc_channel = true →
        h.networkMessageReceived b = (h, [Effect.ipcWrite (-1) b])) ∧
    (∀ (h : Host) (b : List Nat), h.network_channel = true →
        h.ipcMessageReceived b = (h, [Effect.netWrite (-1) b])) := by
  refine ⟨relayInv_run evs relayInit relayInv_init hv, ?_, ?_⟩ <;>
    intro h b hc <;>
      simp [Host.networkMessageReceived, Host.ipcMessageReceived, hc]

/-- Witness for C5 on a concrete two-message relay trace. -/
theorem C5_relay_backpressure_verbatim_witness :
    relayValid relayInit
        [RelayEvent.netDeliver [1, 2], RelayEvent.ipcWriteDone,
         RelayEvent.ipcDeliver [3], RelayEvent.netWriteDone] = true ∧
    (relayInv (relayRun relayInit
        [RelayEvent.netDeliver [1, 2], RelayEvent.ipcWriteDone,
         RelayEvent.ipcDeliver [3], RelayEvent.netWriteDone]) ∧
     (∀ (h : Host) (b : List Nat), h.ipc_channel = true →
         h.networkMessageReceived b = (h, [Effect.ipcWrite (-1) b])) ∧
     (∀ (h : Host) (b : List Nat), h.network_channel = true →
         h.ipcMessageReceived b = (h, [Effect.netWrite (-1) b]))) :=
  ⟨by decide,
   C5_relay_backpressure_verbatim
     [RelayEvent.netDeliver [1, 2], RelayEvent.ipcWriteDone,
      RelayEvent.ipcDeliver [3], RelayEvent.netWriteDone] (by decide)⟩

/-- Claim C6: the worker launch chooses the System account for
DesktopManage and DesktopView and the User account for FileTransfer, the
argument list is exactly `--channel_id <id> --session_type <token>` with
the matching token, and an unrecognized session type is fatal. -/
theorem C6_worker_launch_account_and_args (h : Host) (channelId : String) :
    (h.session_type = SessionType.desktopManage →
      h.ipcServerStarted channelId =
        ({ h with session_process := true },
         [Effect.spawnProcess Account.system
            ["--channel_id", channelId, "--session_type", "desktop_manage"]
            h.session_id])) ∧
    (h.session_type = SessionType.desktopView →
      h.ipcServerStarted channelId =
        ({ h with session_process := true },
         [Effect.spawnProcess Account.system
            ["--channel_id", channelId, "--session_type", "desktop_view"]
            h.session_id])) ∧
    (h.session_type = SessionType.fileTransfer →
      h.ipcServerStarted channelId =
        ({ h with session_process := true },
         [Effect.spawnProcess Account.user
            ["--channel_id", channelId, "--session_type", "file_transfer"]
            h.session_id])) ∧
    (h.session_type = SessionType.unknown →
      h.ipcServerStarted channelId = (h, [Effect.fatal])) := by
  obtain ⟨st, sty, tid, sid, sp, ic, nc, pend, arm⟩ := h
  refine ⟨fun hs => ?_, fun hs => ?_, fun hs => ?_, fun hs => ?_⟩ <;>
    (simp only at hs; subst hs; rfl)

/-- Witness for C6 at four concrete supervisors, one per session type. -/
theorem C6_worker_launch_account_and_args_witness :
    Host.ipcServerStarted "c"
        ⟨HState.starting, SessionType.desktopManage, 1, 5, false, false, true,
         1, [1]⟩ =
      (⟨HState.starting, SessionType.desktopManage, 1, 5, true, false, true,
         1, [1]⟩,
       [Effect.spawnProcess Account.system
          ["--channel_id", "c", "--session_type", "desktop_manage"] 5]) ∧
    Host.ipcServerStarted "c"
        ⟨HState.starting, SessionType.desktopView, 1, 5, false, false, true,
         1, [1]⟩ =
      (⟨HState.starting, SessionType.desktopView, 1, 5, true, false, true,
         1, [1]⟩,
       [Effect.spawnProcess Account.system
          ["--channel_id", "c", "--session_type", "desktop_view"] 5]) ∧
    Host.ipcServerStarted "c"
        ⟨HState.starting, SessionType.fileTransfer, 1, 5, false, false, true,
         1, [1]⟩ =
      (⟨HState.starting, SessionType.fileTransfer, 1, 5, true, false, true,
         1, [1]⟩,
       [Effect.spawnProcess Account.user
          ["--channel_id", "c", "--session_type", "file_transfer"] 5]) ∧
    Host.ipcServerStarted "c"
        ⟨HState.starting, SessionType.unknown, 1, 5, false, false, true,
         1, [1]⟩ =
      (⟨HState.starting, SessionType.unknown, 1, 5, false, false, true,
         1, [1]⟩, [Effect.fatal]) :=
  ⟨(C6_worker_launch_account_and_args
      ⟨HState.starting, SessionType.desktopManage, 1, 5, false, false, true,
       1, [1]⟩ "c").1 rfl,
   (C6_worker_launch_account_and_args
      ⟨HState.starting, SessionType.desktopView, 1, 5, false, false, true,
       1, [1]⟩ "c").2.1 rfl,
   (C6_worker_launch_account_and_args
      ⟨HState.starting, SessionType.fileTransfer, 1, 5, false, false, true,
       1, [1]⟩ "c").2.2.1 rfl,
   (C6_worker_launch_account_and_args
      ⟨HState.starting, SessionType.unknown, 1, 5, false, false, true,
       1, [1]⟩ "c").2.2.2 rfl⟩

/-- Claim C7: whenever validation fails, `setName`, `setPassword` and
`setPasswordHash` return `false` and leave the credential record completely
unchanged. -/
theorem C7_validation_failure_no_mutation (u : User) (n p : String)
    (d : List Nat) (sha512 : List Nat → List Nat) :
    (isValidName n = false → u.setName n = (false, u)) ∧
    (isValidPassword p = false → u.setPassword sha512 p = (false, u)) ∧
    (isValidPasswordHash d = false → u.setPasswordHash d = (false, u)) := by
  refine ⟨fun hv => ?_, fun hv => ?_, fun hv => ?_⟩ <;>
    simp [User.setName, User.setPassword, User.setPasswordHash, hv]

/-- Witness for C7: empty name, too-short password, wrong-length digest. -/
theorem C7_validation_failure_no_mutation_witness :
    User.setName "" ⟨"x", [], 0, 0⟩ = (false, ⟨"x", [], 0, 0⟩) ∧
    User.setPassword (fun l => l) "short" ⟨"x", [], 0, 0⟩ =
      (false, ⟨"x", [], 0, 0⟩) ∧
    User.setPasswordHash [1, 2, 3] ⟨"x", [], 0, 0⟩ =
      (false, ⟨"x", [], 0, 0⟩) :=
  ⟨(C7_validation_failure_no_mutation ⟨"x", [], 0, 0⟩ "" "short" [1, 2, 3]
      (fun l => l)).1 (by decide),
   (C7_validation_failure_no_mutation ⟨"x", [], 0, 0⟩ "" "short" [1, 2, 3]
      (fun l => l)).2.1 (by decide),
   (C7_validation_failure_no_mutation ⟨"x", [], 0, 0⟩ "" "short" [1, 2, 3]
      (fun l => l)).2.2 (by decide)⟩

/-- Claim C8: a password passing length validation is stored as the hash
function iterated exactly 100000 times on the UTF-8 encoding of the
password; a password failing validation is rejected with the record
unchanged and without the hash function being applied (the result does not
depend on it). -/
theorem C8_setPassword_iterated_hash (u : User) (v : String)
    (sha512 f g : List Nat → List Nat) :
    (isValidPassword v = true →
      u.setPassword sha512 v =
        (true,
         { u with password_hash := createPasswordHash sha512 (utf8Bytes v) })) ∧
    createPasswordHash sha512 (utf8Bytes v) =
      Nat.iterate sha512 100000 (utf8Bytes v) ∧
    (isValidPassword v = false →
      u.setPassword f v = (false, u) ∧ u.setPassword f v = u.setPassword g v) := by
  refine ⟨fun hv => ?_, rfl, fun hv => ?_⟩ <;> simp [User.setPassword, hv]

/-- Witness for C8 at a concrete valid password. -/
theorem C8_setPassword_iterated_hash_witness :
    isValidPassword "password1" = true ∧
    User.setPassword (fun l => l) "password1" ⟨"x", [], 0, 0⟩ =
      (true,
       { (⟨"x", [], 0, 0⟩ : User) with
         password_hash :=
           createPasswordHash (fun l => l) (utf8Bytes "password1") }) ∧
    createPasswordHash (fun l => (l : List Nat)) (utf8Bytes "password1") =
      Nat.iterate (fun l => l) 100000 (utf8Bytes "password1") :=
  ⟨by decide,
   (C8_setPassword_iterated_hash ⟨"x", [], 0, 0⟩ "password1" (fun l => l)
      (fun l => l) (fun l => l)).1 (by decide),
   (C8_setPassword_iterated_hash ⟨"x", [], 0, 0⟩ "password1" (fun l => l)
      (fun l => l) (fun l => l)).2.1⟩

/-- Claim C9: a console connect event delivered while Attached restarts the
attach sequence (state Starting, fresh IPC server, new target session id)
while the existing worker-process handle and IPC channel are left untouched
(no kill, no delete). -/
theorem C9_connect_while_attached_no_teardown (h : Host) (sessionId : Nat)
    (tids : List Nat) (hatt : h.state = HState.attached)
    (hp : h.session_process = true) (hc : h.ipc_channel = true) :
    Host.sessionChanged WTS_CONSOLE_CONNECT sessionId tids h =
      ({ h with state := HState.starting, session_id := sessionId,
                server_pending := h.server_pending + 1 },
       [Effect.newIpcServer]) ∧
    (Host.sessionChanged WTS_CONSOLE_CONNECT sessionId tids h).1.session_process
      = true ∧
    (Host.sessionChanged WTS_CONSOLE_CONNECT sessionId tids h).1.ipc_channel
      = true := by
  obtain ⟨st, sty, tid, sid, sp, ic, nc, pend, arm⟩ := h
  simp only at hatt hp hc
  subst hatt hp hc
  exact ⟨rfl, rfl, rfl⟩

/-- Witness for C9 at a concrete Attached supervisor. -/
theorem C9_connect_while_attached_no_teardown_witness :
    Host.sessionChanged WTS_CONSOLE_CONNECT 9 []
        ⟨HState.attached, SessionType.desktopManage, 0, 5, true, true, true,
         0, []⟩ =
      ({ (⟨HState.attached, SessionType.desktopManage, 0, 5, true, true, true,
           0, []⟩ : Host) with
         state := HState.starting, session_id := 9,
         server_pending := 0 + 1 },
       [Effect.newIpcServer]) ∧
    (Host.sessionChanged WTS_CONSOLE_CONNECT 9 []
        ⟨HState.attached, SessionType.desktopManage, 0, 5, true, true, true,
         0, []⟩).1.session_process = true ∧
    (Host.sessionChanged WTS_CONSOLE_CONNECT 9 []
        ⟨HState.attached, SessionType.desktopManage, 0, 5, true, true, true,
         0, []⟩).1.ipc_channel = true :=
  C9_connect_while_attached_no_teardown
    ⟨HState.attached, SessionType.desktopManage, 0, 5, true, true, true, 0,
     []⟩ 9 [] rfl rfl rfl

/-- Claim C10: a network message received while no IPC channel is attached,
and an IPC message received while the network channel handle is null, are
silently discarded: no effect is emitted and the state is unchanged. -/
theorem C10_message_discarded_when_peer_null (h : Host) (buffer : List Nat) :
    (h.ipc_channel = false →
      h.networkMessageReceived buffer = (h, []) ∧
      handleEvent h (Event.netMsgReceived buffer) = (h, [])) ∧
    (h.network_channel = false →
      h.ipcMessageReceived buffer = (h, []) ∧
      handleEvent h (Event.ipcMsgReceived buffer) = (h, [])) := by
  constructor <;> intro hn <;>
    simp [Host.networkMessageReceived, Host.ipcMessageReceived, handleEvent,
      hn]

/-- Witness for C10 at a concrete supervisor with both peers gone. -/
theorem C10_message_discarded_when_peer_null_witness :
    (Host.networkMessageReceived [9]
        ⟨HState.starting, SessionType.desktopManage, 1, 5, false, false,
         false, 1, [1]⟩ =
      (⟨HState.starting, SessionType.desktopManage, 1, 5, false, false,
         false, 1, [1]⟩, []) ∧
     handleEvent
        ⟨HState.starting, SessionType.desktopManage, 1, 5, false, false,
         false, 1, [1]⟩ (Event.netMsgReceived [9]) =
      (⟨HState.starting, SessionType.desktopManage, 1, 5, false, false,
         false, 1, [1]⟩, [])) ∧
    (Host.ipcMessageReceived [9]
        ⟨HState.starting, SessionType.desktopManage, 1, 5, false, false,
         false, 1, [1]⟩ =
      (⟨HState.starting, SessionType.desktopManage, 1, 5, false, false,
         false, 1, [1]⟩, []) ∧
     handleEvent
        ⟨HState.starting, SessionType.desktopManage, 1, 5, false, false,
         false, 1, [1]⟩ (Event.ipcMsgReceived [9]) =
      (⟨HState.starting, SessionType.desktopManage, 1, 5, false, false,
         false, 1, [1]⟩, [])) :=
  ⟨(C10_message_discarded_when_peer_null
      ⟨HState.starting, SessionType.desktopManage, 1, 5, false, false, false,
       1, [1]⟩ [9]).1 rfl,
   (C10_message_discarded_when_peer_null
      ⟨HState.starting, SessionType.desktopManage, 1, 5, false, false, false,
       1, [1]⟩ [9]).2 rfl⟩

end Aspia
